import Mathlib

/-!
Verification of the portable glob engine (`uv-ieg-walk`) and its sibling
validator copy (`uv-build-backend`): the restricted-glob validator
`check_portable_glob` / `check_pep639_globs`, and the directory matcher
`GlobDirMatcher` (`match_path` / `match_directory`) used by the pruning
walker. Rust strings are embedded as `List Char` (Rust `str::chars` with
`enumerate`, so positions are character indices), byte paths as `List Nat`,
and `usize` arithmetic with explicit wrapping modulo `2 ^ 64`.
-/

namespace UvIegWalk

/-- Rust `usize` modulus. -/
def USIZE : Nat := 2 ^ 64

/-- Rust `usize` subtraction `a - b` with release-mode wrapping semantics:
underflow wraps modulo `2 ^ 64` (in debug builds it panics instead). -/
def usizeSub (a b : Nat) : Nat := (a + USIZE - b) % USIZE

/-- The error kinds of `PortableGlobError` / `Pep639GlobError` that
`check_portable_glob` / `check_pep639_globs` can produce, with their
0-based character position payloads (the redundant copy of the glob string
carried by the Rust error is omitted). -/
inductive GlobErrorKind where
  | parentDirectory (pos : Nat)
  | invalidCharacter (pos : Nat) (invalid : Char)
  | invalidCharacterRange (pos : Nat) (invalid : Char)
  | tooManyStars (pos : Nat)
deriving DecidableEq

/-- The inner `while let Some((_, c)) = chars.peek()` loop of the star
branch: count the consecutive stars at the head of the remaining input and
consume them, returning the count and the rest. -/
def consumeStars : List Char → Nat × List Char
  | [] => (0, [])
  | c :: rest =>
    if c = '*' then
      let (n, r) := consumeStars rest
      (n + 1, r)
    else
      (0, c :: rest)

/-- The inner `for (pos, c) in chars.by_ref()` loop of the `[` branch:
consume the body of a character class.  `isAlnum` stands for Rust
`char::is_alphanumeric` (a standard-library function, kept abstract).
Returns the position after the class and the remaining input, or the
`InvalidCharacterRange` error.  An unclosed class simply exhausts the
input, as in the source. -/
def consumeBracket (isAlnum : Char → Bool) : Nat → List Char → Except GlobErrorKind (Nat × List Char)
  | pos, [] => .ok (pos, [])
  | pos, c :: rest =>
    if isAlnum c || c = '_' || c = '-' || c = '.' then
      consumeBracket isAlnum (pos + 1) rest
    else if c = ']' then
      .ok (pos + 1, rest)
    else
      .error (.invalidCharacterRange pos c)

theorem consumeStars_length (l : List Char) : (consumeStars l).2.length ≤ l.length := by
  induction l with
  | nil => simp [consumeStars]
  | cons c rest ih =>
    simp only [consumeStars]
    split
    · simpa using Nat.le_succ_of_le ih
    · simp

theorem consumeBracket_length (isAlnum : Char → Bool) :
    ∀ (pos : Nat) (l : List Char) (q : Nat) (r : List Char),
      consumeBracket isAlnum pos l = .ok (q, r) → r.length ≤ l.length := by
  intro pos l
  induction l generalizing pos with
  | nil => intro q r h; simp [consumeBracket] at h; simp [h.2]
  | cons c rest ih =>
    intro q r h
    simp only [consumeBracket] at h
    split at h
    · exact Nat.le_succ_of_le (ih (pos + 1) q r h)
    · split at h
      · simp at h
        simp [h.2]
      · simp at h

/-- The main loop of `check_portable_glob` (crate `uv-ieg-walk`,
`portable_glob.rs`): `pos` is the index of the head of `l` in the original
glob, `start_or_slash` tracks "at start of string or right after `/`".
`isAlnum` stands for Rust `char::is_alphanumeric`. -/
def check_portable_glob_loop (isAlnum : Char → Bool) :
    Nat → Bool → List Char → Except GlobErrorKind Unit
  | _, _, [] => .ok ()
  | pos, start_or_slash, c :: rest =>
    if c = '*' then
      match hs : consumeStars rest with
      | (extra, rest2) =>
        let star_run := 1 + extra
        if star_run = 3 then
          .error (.tooManyStars (usizeSub (pos + 1) star_run))
        else if star_run = 2 then
          match rest2 with
          | [] => .error (.tooManyStars (usizeSub pos star_run))
          | c2 :: rest3 =>
            if c2 ≠ '/' then
              .error (.tooManyStars (usizeSub pos star_run))
            else
              check_portable_glob_loop isAlnum (pos + star_run) false (c2 :: rest3)
        else
          check_portable_glob_loop isAlnum (pos + star_run) false rest2
    else if isAlnum c || c = '_' || c = '-' || c = '?' then
      check_portable_glob_loop isAlnum (pos + 1) false rest
    else if c = '.' then
      if start_or_slash ∧ rest.head? = some '.' then
        .error (.parentDirectory pos)
      else
        check_portable_glob_loop isAlnum (pos + 1) false rest
    else if c = '/' then
      check_portable_glob_loop isAlnum (pos + 1) true rest
    else if c = '[' then
      match hb : consumeBracket isAlnum (pos + 1) rest with
      | .ok (pos2, rest2) => check_portable_glob_loop isAlnum pos2 false rest2
      | .error e => .error e
    else
      .error (.invalidCharacter pos c)
termination_by _ _ l => l.length
decreasing_by
  · have := consumeStars_length rest
    rw [hs] at this
    simp at this ⊢
    omega
  · have := consumeStars_length rest
    rw [hs] at this
    simp at this ⊢
    omega
  · simp
  · simp
  · simp
  · have := consumeBracket_length isAlnum (pos + 1) rest pos2 rest2 hb
    simp only [List.length_cons]
    omega

/-- `check_portable_glob` from `uv-ieg-walk/src/portable_glob.rs`. -/
def check_portable_glob (isAlnum : Char → Bool) (glob : List Char) :
    Except GlobErrorKind Unit :=
  check_portable_glob_loop isAlnum 0 true glob

/-- The main loop of `check_pep639_globs` (crate `uv-build-backend`,
`globs.rs`).  Identical to `check_portable_glob_loop` except in the
two-star branch, where the source tests `if c != '/'` — `c` being the
outer loop's character, i.e. the `'*'` that opened the run (the inner
`while let` rebinding of `c` is out of scope there), so the test is kept
verbatim on that character. -/
def check_pep639_globs_loop (isAlnum : Char → Bool) :
    Nat → Bool → List Char → Except GlobErrorKind Unit
  | _, _, [] => .ok ()
  | pos, start_or_slash, c :: rest =>
    if c = '*' then
      match hs : consumeStars rest with
      | (extra, rest2) =>
        let star_run := 1 + extra
        if star_run = 3 then
          .error (.tooManyStars (usizeSub (pos + 1) star_run))
        else if star_run = 2 then
          if c ≠ '/' then
            .error (.tooManyStars (usizeSub pos star_run))
          else
            check_pep639_globs_loop isAlnum (pos + star_run) false rest2
        else
          check_pep639_globs_loop isAlnum (pos + star_run) false rest2
    else if isAlnum c || c = '_' || c = '-' || c = '?' then
      check_pep639_globs_loop isAlnum (pos + 1) false rest
    else if c = '.' then
      if start_or_slash ∧ rest.head? = some '.' then
        .error (.parentDirectory pos)
      else
        check_pep639_globs_loop isAlnum (pos + 1) false rest
    else if c = '/' then
      check_pep639_globs_loop isAlnum (pos + 1) true rest
    else if c = '[' then
      match hb : consumeBracket isAlnum (pos + 1) rest with
      | .ok (pos2, rest2) => check_pep639_globs_loop isAlnum pos2 false rest2
      | .error e => .error e
    else
      .error (.invalidCharacter pos c)
termination_by _ _ l => l.length
decreasing_by
  · have := consumeStars_length rest
    rw [hs] at this
    simp at this ⊢
    omega
  · have := consumeStars_length rest
    rw [hs] at this
    simp at this ⊢
    omega
  · simp
  · simp
  · simp
  · have := consumeBracket_length isAlnum (pos + 1) rest pos2 rest2 hb
    simp only [List.length_cons]
    omega

/-- `check_pep639_globs` from `uv-build-backend/src/globs.rs`. -/
def check_pep639_globs (isAlnum : Char → Bool) (glob : List Char) :
    Except GlobErrorKind Unit :=
  check_pep639_globs_loop isAlnum 0 true glob

/-! ## The directory matcher (`glob_walker.rs`)

The DFA itself is built by the external `regex_automata` crate (not part of
this repository); it is embedded as an abstract deterministic byte
automaton with the exact API surface `match_directory` uses, and its
construction contract is modelled from the spec (see `DfaCorrect`). -/

/-- A dense DFA as used through the `regex_automata` API in
`glob_walker.rs`: states are numbered, transitions are total over the byte
alphabet, and end-of-input has its own transition. -/
structure Dfa where
  start_state : Nat
  next_state : Nat → Nat → Nat
  next_eoi_state : Nat → Nat
  is_match_state : Nat → Bool
  is_dead_state : Nat → Bool

/-- The `for b in byte_path.as_bytes() { state = dfa.next_state(state, *b) }`
loop: run the anchored DFA from its start state over the bytes of a path. -/
def run_dfa (dfa : Dfa) (path : List Nat) : Nat :=
  path.foldl dfa.next_state dfa.start_state

/-- `u8::try_from(MAIN_SEPARATOR).unwrap()` on a `/`-separator platform:
the byte 47. -/
def MAIN_SEPARATOR_BYTE : Nat := 47

/-- `GlobDirMatcher` from `glob_walker.rs`: the glob set (the external
`globset::GlobSet::is_match`, embedded as an abstract byte-path predicate)
plus the optional prefix DFA (`None` when the size budget was exceeded). -/
structure GlobDirMatcher where
  glob_set : List Nat → Bool
  dfa : Option Dfa

/-- `GlobDirMatcher::match_path`: whether the path matches any of the
globs. -/
def GlobDirMatcher.match_path (m : GlobDirMatcher) (path : List Nat) : Bool :=
  m.glob_set path

/-- `GlobDirMatcher::match_directory` from `glob_walker.rs` lines 137-171,
embedded branch for branch: when `self.dfa` is `None` it returns `false`;
the empty (root) path returns `true`; otherwise the DFA is run over the
path bytes and the result is
`is_match_state(eoi_state) || !is_dead_state(slash_state)`. -/
def GlobDirMatcher.match_directory (m : GlobDirMatcher) (path : List Nat) : Bool :=
  match m.dfa with
  | none => false
  | some dfa =>
    if path = [] then
      true
    else
      let state := run_dfa dfa path
      let eoi_state := dfa.next_eoi_state state
      let slash_state := dfa.next_state state MAIN_SEPARATOR_BYTE
      dfa.is_match_state eoi_state || !dfa.is_dead_state slash_state

/-- Modelled from the spec: the contract of a successfully built PrefixDFA.
The construction lives in the external `regex_automata` crate, so it is
not embedded; the spec states that the DFA is the anchored dense automaton
of the union of the same byte regexes the glob set matches with
("PrefixDFA, when present, recognizes exactly the set of byte strings that
are prefixes (up to and including entire matches) of any glob, anchored at
the start") and that a dead state is one from which no input can reach a
match. -/
structure DfaCorrect (dfa : Dfa) (glob_set : List Nat → Bool) : Prop where
  /-- Running the DFA to end-of-input decides exactly the glob set. -/
  eoi_match : ∀ path : List Nat, dfa.is_match_state (dfa.next_eoi_state (run_dfa dfa path)) = glob_set path
  /-- Dead states are absorbing: no byte leaves a dead state. -/
  dead_step : ∀ s b, dfa.is_dead_state s = true → dfa.is_dead_state (dfa.next_state s b) = true
  /-- A dead state never becomes a match at end-of-input. -/
  dead_no_match : ∀ s, dfa.is_dead_state s = true → dfa.is_match_state (dfa.next_eoi_state s) = false

/-! ## The pruning walker (`GlobWalkerIntoIterator::next`)

The filesystem is embedded as a finite tree of named entries; the walker
loop of `glob_walker.rs` lines 49-72 becomes a recursive traversal: a
directory entry whose `match_directory` is false is skipped with its whole
subtree (`skip_current_dir`), an entry whose `match_path` is false is not
yielded (directories still being recursed into), and every other entry is
yielded with its relative path.  `walkdir` yields depth-first pre-order,
which the traversal mirrors. -/

/-- A filesystem entry: a plain file or a directory with children.  Names
are byte strings. -/
inductive FsTree where
  | file (name : List Nat) : FsTree
  | dir (name : List Nat) (children : List FsTree) : FsTree

/-- The name of an entry. -/
def FsTree.name : FsTree → List Nat
  | .file n => n
  | .dir n _ => n

/-- Relative path of a child named `name` inside the directory with
relative path `parent` (the walk root has the empty relative path). -/
def joinRel (parent name : List Nat) : List Nat :=
  if parent = [] then name else parent ++ MAIN_SEPARATOR_BYTE :: name

mutual
/-- The relative paths yielded by `GlobWalkerIntoIterator::next` for the
subtree rooted at entry `t` whose relative path is `rel`, in yield
order. -/
def globWalk (m : GlobDirMatcher) (rel : List Nat) : FsTree → List (List Nat)
  | .file _ =>
    if m.match_path rel then [rel] else []
  | .dir _ children =>
    if m.match_directory rel then
      (if m.match_path rel then [rel] else []) ++ globWalkForest m rel children
    else
      []
/-- The yields of the children of the directory with relative path `rel`. -/
def globWalkForest (m : GlobDirMatcher) (rel : List Nat) : List FsTree → List (List Nat)
  | [] => []
  | t :: ts => globWalk m (joinRel rel t.name) t ++ globWalkForest m rel ts
end

/-! ## A concrete instance for witnesses

The anchored DFA of the single one-byte glob `a` (byte 97): state 0 is the
start, state 1 has read exactly `a`, state 3 is the end-of-input match
state, state 2 is the dead state. -/

/-- The glob set of the single glob `a`: matches exactly the byte string
`[97]`. -/
def exGlobSet (path : List Nat) : Bool := path = [97]

/-- The anchored DFA recognizing exactly the byte string `[97]`. -/
def exDfa : Dfa where
  start_state := 0
  next_state := fun s b => if s = 0 ∧ b = 97 then 1 else 2
  next_eoi_state := fun s => if s = 1 then 3 else 2
  is_match_state := fun s => s = 3
  is_dead_state := fun s => s = 2

/-! ## Helper lemmas -/

theorem exDfa_foldl_dead (l : List Nat) : l.foldl exDfa.next_state 2 = 2 := by
  induction l with
  | nil => rfl
  | cons x xs ih => simpa [exDfa] using ih

theorem exDfaCorrect : DfaCorrect exDfa exGlobSet := by
  constructor
  · intro path
    match path with
    | [] => rfl
    | [b] =>
      by_cases hb : b = 97
      · subst hb; rfl
      · simp [run_dfa, exDfa, exGlobSet, hb]
    | b :: c :: rest =>
      have hs : exDfa.next_state (exDfa.next_state 0 b) c = 2 := by
        by_cases hb : b = 97 <;> simp [exDfa, hb]
      have h2 : run_dfa exDfa (b :: c :: rest) = 2 := by
        show List.foldl exDfa.next_state (exDfa.next_state (exDfa.next_state 0 b) c) rest = 2
        rw [hs]
        exact exDfa_foldl_dead rest
      rw [h2]
      simp [exDfa, exGlobSet]
  · intro s b h
    have hs : s = 2 := by simpa [exDfa] using h
    subst hs
    simp [exDfa]
  · intro s h
    have hs : s = 2 := by simpa [exDfa] using h
    subst hs
    simp [exDfa]

theorem DfaCorrect.dead_run {dfa : Dfa} {g : List Nat → Bool} (hc : DfaCorrect dfa g)
    (l : List Nat) (s : Nat) (hs : dfa.is_dead_state s = true) :
    dfa.is_dead_state (l.foldl dfa.next_state s) = true := by
  induction l generalizing s with
  | nil => simpa using hs
  | cons b bs ih =>
    simp only [List.foldl_cons]
    exact ih _ (hc.dead_step s b hs)

theorem globWalkForest_mem (m : GlobDirMatcher) (rel : List Nat) (ts : List FsTree)
    (p : List Nat) (hp : p ∈ globWalkForest m rel ts) :
    ∃ t ∈ ts, p ∈ globWalk m (joinRel rel t.name) t := by
  induction ts with
  | nil => simp [globWalkForest] at hp
  | cons t ts ih =>
    rw [globWalkForest] at hp
    rcases List.mem_append.mp hp with h | h
    · exact ⟨t, List.mem_cons_self t ts, h⟩
    · obtain ⟨u, hu, hpu⟩ := ih h
      exact ⟨u, List.mem_cons_of_mem t hu, hpu⟩

theorem globWalk_matches (m : GlobDirMatcher) :
    ∀ (n : Nat) (t : FsTree), sizeOf t ≤ n → ∀ (rel p : List Nat),
      p ∈ globWalk m rel t → m.match_path p = true := by
  intro n
  induction n with
  | zero =>
    intro t ht
    exact absurd ht (by cases t <;> simp)
  | succ n ih =>
    intro t ht rel p hp
    match t with
    | .file nm =>
      rw [globWalk] at hp
      by_cases h : m.match_path rel
      · simp only [h, if_true, List.mem_singleton] at hp
        subst hp
        exact h
      · simp [h] at hp
    | .dir nm children =>
      rw [globWalk] at hp
      by_cases hd : m.match_directory rel
      · simp only [hd, if_true, List.mem_append] at hp
        rcases hp with hp | hp
        · by_cases h : m.match_path rel
          · simp only [h, if_true, List.mem_singleton] at hp
            subst hp
            exact h
          · simp [h] at hp
        · obtain ⟨c, hc, hpc⟩ := globWalkForest_mem m rel children p hp
          have hlt : sizeOf c < sizeOf (FsTree.dir nm children) := by
            have := List.sizeOf_lt_of_mem hc
            simp only [FsTree.dir.sizeOf_spec]
            omega
          exact ih c (by omega) (joinRel rel c.name) p hpc
      · simp [hd] at hp

/-! ## The claims -/

/-- C1: the spec says that when the PrefixDFA is absent (size budget
exceeded), `match_directory` returns `true` for every relative path, so
the walker degrades to "visit all, yield matches".  The code does the
opposite: with `dfa = None` the function returns `false` for every input
(including the root), so the degraded walker visits nothing.  This
theorem evaluates the embedded code on the absent-DFA case. -/
theorem match_directory_absent_dfa (g : List Nat → Bool) (p : List Nat) :
    GlobDirMatcher.match_directory ⟨g, none⟩ p = false := rfl

/-- C2: pruning is safe.  For a successfully built PrefixDFA satisfying the
spec's construction contract (`DfaCorrect`, modelled from the spec because
the DFA builder lives in the external `regex_automata` crate), whenever
`match_directory D = false`, every descendant path `D ++ '/' ++ suffix`
fails `match_path`. -/
theorem match_directory_pruning_safe (g : List Nat → Bool) (dfa : Dfa)
    (hc : DfaCorrect dfa g) (D suffix : List Nat)
    (hD : GlobDirMatcher.match_directory ⟨g, some dfa⟩ D = false) :
    GlobDirMatcher.match_path ⟨g, some dfa⟩ (D ++ MAIN_SEPARATOR_BYTE :: suffix) = false := by
  by_cases hD0 : D = []
  · subst hD0
    simp [GlobDirMatcher.match_directory] at hD
  · rw [GlobDirMatcher.match_directory] at hD
    simp only [hD0, if_false, Bool.or_eq_false_iff, Bool.not_eq_false] at hD
    obtain ⟨hm, hdead⟩ := hD
    have hrun : run_dfa dfa (D ++ MAIN_SEPARATOR_BYTE :: suffix) =
        suffix.foldl dfa.next_state (dfa.next_state (run_dfa dfa D) MAIN_SEPARATOR_BYTE) := by
      simp [run_dfa, List.foldl_append]
    have hdead2 : dfa.is_dead_state (run_dfa dfa (D ++ MAIN_SEPARATOR_BYTE :: suffix)) = true := by
      rw [hrun]
      exact hc.dead_run suffix _ (by simpa using hdead)
    have hnm := hc.dead_no_match _ hdead2
    calc GlobDirMatcher.match_path ⟨g, some dfa⟩ (D ++ MAIN_SEPARATOR_BYTE :: suffix)
        = g (D ++ MAIN_SEPARATOR_BYTE :: suffix) := rfl
      _ = dfa.is_match_state (dfa.next_eoi_state
            (run_dfa dfa (D ++ MAIN_SEPARATOR_BYTE :: suffix))) := (hc.eoi_match _).symm
      _ = false := hnm

/-- Witness for C2: the concrete one-glob matcher for `a` refuses to
descend into directory `b` (byte 98), and indeed the descendant `b/a` does
not match. -/
theorem match_directory_pruning_safe_witness :
    GlobDirMatcher.match_path ⟨exGlobSet, some exDfa⟩
      ([98] ++ MAIN_SEPARATOR_BYTE :: [97]) = false :=
  match_directory_pruning_safe exGlobSet exDfa exDfaCorrect [98] [97] (by decide)

/-- C3: with the PrefixDFA present and a non-empty relative path,
`match_directory` returns true iff the end-of-input successor of the state
reached on the path's bytes is a match state, or the successor on the
separator byte `/` is not a dead state. -/
theorem match_directory_dfa_formula (g : List Nat → Bool) (dfa : Dfa) (p : List Nat)
    (hp : p ≠ []) :
    GlobDirMatcher.match_directory ⟨g, some dfa⟩ p =
      (dfa.is_match_state (dfa.next_eoi_state (run_dfa dfa p)) ||
        !dfa.is_dead_state (dfa.next_state (run_dfa dfa p) MAIN_SEPARATOR_BYTE)) := by
  simp [GlobDirMatcher.match_directory, hp]

/-- Witness for C3 at the concrete path `a` (byte 97) and the concrete
one-glob DFA. -/
theorem match_directory_dfa_formula_witness :
    GlobDirMatcher.match_directory ⟨exGlobSet, some exDfa⟩ [97] =
      (exDfa.is_match_state (exDfa.next_eoi_state (run_dfa exDfa [97])) ||
        !exDfa.is_dead_state (exDfa.next_state (run_dfa exDfa [97]) MAIN_SEPARATOR_BYTE)) :=
  match_directory_dfa_formula exGlobSet exDfa [97] (by decide)

/-- C4: walk soundness.  Every relative path yielded by the walker matches
the glob set, and a directory entry whose `match_directory` is false is
neither yielded nor recursed into — its whole subtree produces nothing. -/
theorem glob_walk_sound (m : GlobDirMatcher) (rel : List Nat) (t : FsTree) :
    (∀ p ∈ globWalk m rel t, m.match_path p = true) ∧
    (∀ nm children, t = FsTree.dir nm children →
      m.match_directory rel = false → globWalk m rel t = []) := by
  constructor
  · intro p hp
    exact globWalk_matches m (sizeOf t) t le_rfl rel p hp
  · rintro nm children rfl hdir
    rw [globWalk]
    simp [hdir]

/-- Witness for C4: a yielded path matches (file `a` under a match-all
glob set), and a directory refused by `match_directory` (here: any
directory under an absent DFA) yields nothing from its subtree. -/
theorem glob_walk_sound_witness :
    GlobDirMatcher.match_path ⟨fun _ => true, some exDfa⟩ [97] = true ∧
    globWalk ⟨exGlobSet, none⟩ [] (FsTree.dir [] [FsTree.file [97]]) = [] :=
  ⟨(glob_walk_sound ⟨fun _ => true, some exDfa⟩ [97] (FsTree.file [97])).1 [97]
      (by simp [globWalk, GlobDirMatcher.match_path]),
    (glob_walk_sound ⟨exGlobSet, none⟩ [] (FsTree.dir [] [FsTree.file [97]])).2
      [] [FsTree.file [97]] rfl rfl⟩

/-- C5: the spec's accept-set contains `*/**` (a `**` segment may be
followed by end-of-pattern), but the code rejects it: the final two-star
run has no following `/`, and the `is_none_or` test turns end-of-pattern
into an error, so `check_portable_glob` (and hence `parse_portable_glob`)
reports `TooManyStars` at position 0 instead of accepting. -/
theorem check_portable_glob_rejects_trailing_double_star :
    check_portable_glob Char.isAlphanum "*/**".toList =
      .error (.tooManyStars 0) := by
  simp [check_portable_glob, check_portable_glob_loop, consumeStars, usizeSub, USIZE]

/-- C6: the spec says a run of three or more stars is always rejected and
`******` reports `TooManyStars` at position 0, but the code tests
`star_run == 3` (not `>= 3`), so the six-star run falls through both
branches and `******` is accepted. -/
theorem check_portable_glob_accepts_six_stars :
    check_portable_glob Char.isAlphanum "******".toList = .ok () := by
  simp [check_portable_glob, check_portable_glob_loop, consumeStars]

/-- C7: the spec says the `TooManyStars` position for an `n`-star run is
the run's first star — position 9 for `licenses/***/licenses.csv` — but in
the code `pos` already is the first star of the run (the run is consumed by
peeking), so `pos + 1 - star_run` reports 9 + 1 - 3 = 7. -/
theorem check_portable_glob_three_star_position :
    check_portable_glob Char.isAlphanum "licenses/***/licenses.csv".toList =
      .error (.tooManyStars 7) := by
  simp [check_portable_glob, check_portable_glob_loop, consumeStars, usizeSub, USIZE]

/-- C8: the spec says the empty (root) relative path always admits
descent, with or without the PrefixDFA.  With the DFA present the code
returns true, but with the DFA absent the `None` early-return comes before
the root check and yields false. -/
theorem match_directory_empty_path :
    (∀ g : List Nat → Bool, GlobDirMatcher.match_directory ⟨g, none⟩ [] = false) ∧
    (∀ (g : List Nat → Bool) (dfa : Dfa),
      GlobDirMatcher.match_directory ⟨g, some dfa⟩ [] = true) :=
  ⟨fun _ => rfl, fun _ _ => rfl⟩

/-- C9: the claim says the `usize` subtractions computing `TooManyStars`
positions never underflow.  On input `***` the error site computes
`pos + 1 - star_run` with `pos = 0` (the run's first star) and
`star_run = 3`, which underflows: with wrapping semantics the reported
position is `2 ^ 64 - 2` (in a debug build the subtraction panics). -/
theorem check_portable_glob_underflow :
    check_portable_glob Char.isAlphanum "***".toList =
      .error (.tooManyStars (USIZE - 2)) := by
  simp [check_portable_glob, check_portable_glob_loop, consumeStars, usizeSub, USIZE]

/-- C10: the two validator copies do not agree.  On the spec's accept-set
pattern `licenses/**/*.txt`, `check_portable_glob` (uv-ieg-walk) accepts,
while `check_pep639_globs` (uv-build-backend) tests `c != '/'` against the
opening star itself in the two-star branch — always true — and rejects
every `**` with `TooManyStars` (here at the wrongly computed position 7). -/
theorem validators_disagree :
    check_portable_glob Char.isAlphanum "licenses/**/*.txt".toList = .ok () ∧
    check_pep639_globs Char.isAlphanum "licenses/**/*.txt".toList =
      .error (.tooManyStars 7) := by
  constructor
  · simp [check_portable_glob, check_portable_glob_loop, consumeStars]
  · simp [check_pep639_globs, check_pep639_globs_loop, consumeStars, usizeSub, USIZE]

end UvIegWalk
